import Mathlib

/-
Shallow embedding of the lip-warping / facial-landmark pipeline of this
repository (src/warp.py and src/landmarks.py).

Modelling conventions:
- Python strings are lists of Unicode code points (`PyStr`); `str.upper`,
  `str.lower` and `str.isalpha` are modelled on the ASCII range, which is the
  range the viseme alphabet and phoneme table live in.
- Python floats are modelled exactly as rationals (`ℚ`); `int(...)` is
  truncation toward zero (`pyInt`).
- OpenCV images are an inductive type recording the width/height of each
  buffer and which warp produced it; `cv2.getPerspectiveTransform` /
  `cv2.getAffineTransform` are modelled by their arity contract (they raise
  unless given exactly 4 resp. 3 point pairs), and a caught exception is the
  `none` branch of an `Option`-returning core function, with the surrounding
  `try/except` returning the fallback via `Option.getD`.
- Filesystem and OpenCV I/O (`os.path.exists`, `cv2.imread`, `cv2.cvtColor`)
  are an explicit environment record (`CvEnv`).
-/

/-- Python strings modelled as lists of Unicode code points. -/
abbrev PyStr := List Nat

/-- Model of Python `str.upper` on a single ASCII code point. -/
def pyCharUpper (c : Nat) : Nat := if 97 ≤ c ∧ c ≤ 122 then c - 32 else c

/-- Model of Python `str.upper` (ASCII range). -/
def pyUpper (s : PyStr) : PyStr := s.map pyCharUpper

/-- Model of Python `str.lower` on a single ASCII code point. -/
def pyCharLower (c : Nat) : Nat := if 65 ≤ c ∧ c ≤ 90 then c + 32 else c

/-- Model of Python `str.lower` (ASCII range). -/
def pyLower (s : PyStr) : PyStr := s.map pyCharLower

/-- Model of Python `str.isalpha` for an ASCII code point. -/
def pyIsAlpha (c : Nat) : Bool := decide ((65 ≤ c ∧ c ≤ 90) ∨ (97 ≤ c ∧ c ≤ 122))

/-- Model of Python `int(...)` applied to a float: truncation toward zero. -/
def pyInt (q : ℚ) : ℤ := if q < 0 then ⌈q⌉ else ⌊q⌋

/-- Viseme shape parameters (src/warp.py `_load_viseme_shapes` entries). -/
structure VisemeParams where
  lip_openness : ℚ
  lip_width : ℚ
  lip_height : ℚ
deriving DecidableEq

/-- Shape parameters of viseme `A` (src/warp.py lines 22-26). -/
def paramsA : VisemeParams := ⟨0.8, 1.2, 1.5⟩

/-- The fixed viseme shape table of `LipWarping._load_viseme_shapes`
(src/warp.py lines 18-124); keys are the code points of the one-letter
viseme symbols. -/
def visemeShapes : List (PyStr × VisemeParams) :=
  [([65], ⟨0.8, 1.2, 1.5⟩),  -- A
   ([69], ⟨0.4, 1.1, 1.2⟩),  -- E
   ([73], ⟨0.3, 1.3, 1.1⟩),  -- I
   ([79], ⟨0.6, 0.9, 1.3⟩),  -- O
   ([85], ⟨0.2, 0.8, 1.4⟩),  -- U
   ([70], ⟨0.1, 1.0, 1.0⟩),  -- F
   ([77], ⟨0.0, 1.0, 1.0⟩),  -- M
   ([66], ⟨0.3, 1.0, 1.1⟩),  -- B
   ([80], ⟨0.1, 0.7, 1.2⟩),  -- P
   ([82], ⟨0.5, 0.8, 1.3⟩),  -- R
   ([83], ⟨0.2, 1.1, 1.0⟩),  -- S
   ([84], ⟨0.4, 1.0, 1.1⟩),  -- T
   ([68], ⟨0.3, 1.0, 1.0⟩),  -- D
   ([76], ⟨0.4, 1.2, 1.1⟩),  -- L
   ([78], ⟨0.2, 1.0, 1.0⟩),  -- N
   ([71], ⟨0.5, 1.0, 1.2⟩),  -- G
   ([75], ⟨0.4, 1.0, 1.1⟩),  -- K
   ([72], ⟨0.6, 1.1, 1.3⟩),  -- H
   ([87], ⟨0.3, 0.8, 1.2⟩),  -- W
   ([89], ⟨0.4, 1.1, 1.1⟩)]  -- Y

/-- Model of `self.viseme_shapes.get(key, self.viseme_shapes['A'])`
(src/warp.py line 177): dictionary lookup defaulting to the `A` entry. -/
def visemeShapesGet (key : PyStr) : VisemeParams :=
  (visemeShapes.lookup key).getD paramsA

/-- A 2D point with exact rational coordinates (a row of a float32 Nx2
point array on the warp side). -/
structure Pt2 where
  x : ℚ
  y : ℚ
deriving DecidableEq

/-- Model of an OpenCV transformation matrix, kept abstract as the source and
destination point lists it was solved from. -/
structure CvMat where
  srcPts : List Pt2
  dstPts : List Pt2
deriving DecidableEq

/-- Model of `cv2.getPerspectiveTransform`: raises (returns `none`) unless
given exactly 4 source and 4 destination points. -/
def getPerspectiveTransform (src dst : List Pt2) : Option CvMat :=
  if src.length = 4 ∧ dst.length = 4 then some ⟨src, dst⟩ else none

/-- Model of `cv2.getAffineTransform`: raises (returns `none`) unless given
exactly 3 source and 3 destination points. -/
def getAffineTransform (src dst : List Pt2) : Option CvMat :=
  if src.length = 3 ∧ dst.length = 3 then some ⟨src, dst⟩ else none

/-- Image buffers: a loaded source image, or the output of
`cv2.warpPerspective` / `cv2.warpAffine`, each recording its pixel
dimensions. -/
inductive Image where
  | source (width height : Nat) (id : Nat)
  | warpPerspective (m : CvMat) (img : Image) (width height : Nat)
  | warpAffine (m : CvMat) (img : Image) (width height : Nat)
deriving DecidableEq

/-- Width of an image buffer. -/
def Image.width : Image → Nat
  | .source w _ _ => w
  | .warpPerspective _ _ w _ => w
  | .warpAffine _ _ w _ => w

/-- Height of an image buffer. -/
def Image.height : Image → Nat
  | .source _ h _ => h
  | .warpPerspective _ _ _ h => h
  | .warpAffine _ _ _ h => h

/-- Mean of the x coordinates (`np.mean(points[:, 0])`). -/
def meanX (pts : List Pt2) : ℚ := (pts.map Pt2.x).sum / pts.length

/-- Mean of the y coordinates (`np.mean(points[:, 1])`). -/
def meanY (pts : List Pt2) : ℚ := (pts.map Pt2.y).sum / pts.length

/-- The per-point body of the loop in `LipWarping._apply_viseme_transform`
(src/warp.py lines 322-337). -/
def visemePoint (cx cy : ℚ) (p : VisemeParams) (q : Pt2) : Pt2 :=
  { x := cx + (q.x - cx) * p.lip_width
    y := if p.lip_openness > 0.5 then
           cy + (q.y - cy) * p.lip_height * (1 + p.lip_openness)
         else
           cy + (q.y - cy) * p.lip_height * (1 - p.lip_openness * 0.5) }

/-- `LipWarping._apply_viseme_transform` (src/warp.py lines 298-343): the
centroid is computed from the input points once, then every point is scaled
relative to it. -/
def applyVisemeTransform (pts : List Pt2) (p : VisemeParams) : List Pt2 :=
  pts.map (visemePoint (meanX pts) (meanY pts) p)

/-- The landmark dictionary as read by the warp engine: of a face dictionary
it only ever reads `landmarks['lip_landmarks']['all_lip']` (src/warp.py
lines 210-211), with missing keys defaulting to an empty list. -/
structure WarpFaceDict where
  all_lip : List Pt2
deriving DecidableEq

/-- Body of `LipWarping._warp_default_region` (src/warp.py lines 239-296)
up to its `except` clause: `none` is a raised-then-caught OpenCV error. -/
def warpDefaultRegionCore (image : Image) (p : VisemeParams) : Option Image :=
  let width := image.width
  let height := image.height
  let lip_center_x : Nat := width / 2
  let lip_center_y : Nat := height / 2 + height / 4
  let lip_width : Nat := width / 6
  let lip_height : Nat := height / 8
  let src_points : List Pt2 :=
    [⟨(lip_center_x : ℚ) - (lip_width / 2 : Nat), (lip_center_y : ℚ) - (lip_height / 2 : Nat)⟩,
     ⟨(lip_center_x : ℚ) + (lip_width / 2 : Nat), (lip_center_y : ℚ) - (lip_height / 2 : Nat)⟩,
     ⟨(lip_center_x : ℚ) + (lip_width / 2 : Nat), (lip_center_y : ℚ) + (lip_height / 2 : Nat)⟩,
     ⟨(lip_center_x : ℚ) - (lip_width / 2 : Nat), (lip_center_y : ℚ) + (lip_height / 2 : Nat)⟩]
  let warped_width : ℤ := pyInt ((lip_width : ℚ) * p.lip_width)
  let warped_height0 : ℤ := pyInt ((lip_height : ℚ) * p.lip_height)
  let warped_height : ℤ :=
    if p.lip_openness > 0.5 then pyInt ((warped_height0 : ℚ) * (1 + p.lip_openness))
    else warped_height0
  let dst_points : List Pt2 :=
    [⟨(lip_center_x : ℚ) - (warped_width.fdiv 2 : ℤ), (lip_center_y : ℚ) - (warped_height.fdiv 2 : ℤ)⟩,
     ⟨(lip_center_x : ℚ) + (warped_width.fdiv 2 : ℤ), (lip_center_y : ℚ) - (warped_height.fdiv 2 : ℤ)⟩,
     ⟨(lip_center_x : ℚ) + (warped_width.fdiv 2 : ℤ), (lip_center_y : ℚ) + (warped_height.fdiv 2 : ℤ)⟩,
     ⟨(lip_center_x : ℚ) - (warped_width.fdiv 2 : ℤ), (lip_center_y : ℚ) + (warped_height.fdiv 2 : ℤ)⟩]
  match getPerspectiveTransform src_points dst_points with
  | some m => some (Image.warpPerspective m image width height)
  | none => none

/-- `LipWarping._warp_default_region` with its `except` clause, which returns
the input image (src/warp.py lines 294-296). -/
def warpDefaultRegion (image : Image) (p : VisemeParams) : Image :=
  (warpDefaultRegionCore image p).getD image

/-- Body of `LipWarping._warp_with_landmarks` (src/warp.py lines 195-237)
up to its `except` clause: `none` is a raised-then-caught OpenCV error
(`cv2.getAffineTransform` on fewer than 3 points). -/
def warpWithLandmarksCore (image : Image) (p : VisemeParams) (l : WarpFaceDict) :
    Option Image :=
  let all_lip := l.all_lip
  if all_lip = [] then
    some (warpDefaultRegion image p)
  else
    let lip_points := all_lip
    let transformed_points := applyVisemeTransform lip_points p
    if 4 ≤ lip_points.length then
      match getPerspectiveTransform (lip_points.take 4) (transformed_points.take 4) with
      | some m => some (Image.warpPerspective m image image.width image.height)
      | none => none
    else
      match getAffineTransform (lip_points.take 3) (transformed_points.take 3) with
      | some m => some (Image.warpAffine m image image.width image.height)
      | none => none

/-- `LipWarping._warp_with_landmarks` with its `except` clause, which returns
the input image (src/warp.py lines 235-237). -/
def warpWithLandmarks (image : Image) (p : VisemeParams) (l : WarpFaceDict) : Image :=
  (warpWithLandmarksCore image p l).getD image

/-- Body of `LipWarping._warp_frame` (src/warp.py lines 162-193) up to the
surrounding `except` clause: `none` marks the only caught failure reachable
in the model (an OpenCV error bubbling out of the landmark path, already
mapped to the source image one level down, or out of the default path). -/
def warpFrameCore (image : Image) (viseme : PyStr)
    (landmarks : Option (List WarpFaceDict)) : Option Image :=
  let viseme_params := visemeShapesGet (pyUpper viseme)
  match landmarks with
  | some (l :: _) => warpWithLandmarksCore image viseme_params l
  | _ => warpDefaultRegionCore image viseme_params

/-- `LipWarping._warp_frame`: every caught failure returns the unmodified
input image (src/warp.py lines 191-193; the `if landmarks and
len(landmarks) > 0` test is the `some (l :: _)` pattern, since both `None`
and `[]` are falsy). -/
def warpFrame (image : Image) (viseme : PyStr)
    (landmarks : Option (List WarpFaceDict)) : Image :=
  (warpFrameCore image viseme landmarks).getD image

/-- The filesystem / OpenCV environment: `os.path.exists`, `cv2.imread`
(`none` = decode failure) and `cv2.cvtColor`. -/
structure CvEnv where
  fileExists : String → Bool
  imread : String → Option Image
  cvtColor : Image → Image

/-- `LipWarping.warp_lips` (src/warp.py lines 126-160): load the image, warp
one frame per viseme; a missing or undecodable file raises into the `except`
clause, which returns `[]`. -/
def warpLips (env : CvEnv) (image_path : String) (visemes : List PyStr)
    (landmarks : Option (List WarpFaceDict)) : List Image :=
  if env.fileExists image_path then
    match env.imread image_path with
    | some image => visemes.map (fun v => warpFrame image v landmarks)
    | none => []
  else []

/-- The letter-to-viseme table of `LipWarping.create_viseme_sequence`
(src/warp.py lines 358-364), keyed by lowercase ASCII code points. -/
def phonemeToVisemeTable : List (Nat × PyStr) :=
  [(97, [65]), (101, [69]), (105, [73]), (111, [79]), (117, [85]),
   (102, [70]), (118, [70]), (109, [77]), (98, [66]), (112, [80]),
   (114, [82]), (115, [83]), (116, [84]), (100, [68]), (108, [76]),
   (110, [78]), (103, [71]), (107, [75]), (104, [72]), (119, [87]),
   (121, [89])]

/-- Model of `phoneme_to_viseme.get(char, 'A')` (src/warp.py line 372). -/
def phonemeToViseme (c : Nat) : PyStr :=
  (phonemeToVisemeTable.lookup c).getD [65]

/-- `LipWarping.create_viseme_sequence` (src/warp.py lines 345-384): the
accumulation loop over the lowered text, written as a fold. -/
def createVisemeSequence (text : PyStr) (frame_rate : Nat) : List PyStr :=
  (pyLower text).foldl
    (fun acc c =>
      if pyIsAlpha c then
        acc ++ List.replicate (max 1 (frame_rate / 10)) (phonemeToViseme c)
      else
        acc ++ List.replicate (frame_rate / 20) [65])
    []

/-- A 3D landmark point `[x, y, z]` with exact rational coordinates
(src/landmarks.py line 155). -/
structure Pt3 where
  x : ℚ
  y : ℚ
  z : ℚ
deriving DecidableEq

/-- MediaPipe lip landmark indices (src/landmarks.py lines 178-180). -/
def lipIndices : List Nat :=
  [61, 84, 17, 314, 405, 320, 307, 375, 321, 308, 324, 318, 78, 95, 88, 178,
   87, 14, 317, 402, 318, 324, 308]

/-- MediaPipe left eye landmark indices (src/landmarks.py line 193). -/
def leftEyeIndices : List Nat :=
  [362, 382, 381, 380, 374, 373, 390, 249, 263, 466, 388, 387, 386, 385, 384, 398]

/-- MediaPipe right eye landmark indices (src/landmarks.py line 194). -/
def rightEyeIndices : List Nat :=
  [33, 7, 163, 144, 145, 153, 154, 155, 133, 173, 157, 158, 159, 160, 161, 246]

/-- MediaPipe left eyebrow landmark indices (src/landmarks.py line 208). -/
def leftEyebrowIndices : List Nat :=
  [276, 283, 282, 295, 285, 300, 293, 334, 296, 336, 285, 417, 465, 357, 460,
   469, 454, 447, 377]

/-- MediaPipe right eyebrow landmark indices (src/landmarks.py line 209). -/
def rightEyebrowIndices : List Nat :=
  [70, 63, 105, 66, 107, 55, 65, 52, 53, 46, 124, 35, 111, 143, 112, 145, 116,
   117, 119]

/-- The comprehension `[landmarks[i] for i in indices if i < len(landmarks)]`
shared by the named-group extractors in src/landmarks.py. -/
def extractGroup (indices : List Nat) (landmarks : List Pt3) : List Pt3 :=
  indices.filterMap
    (fun i => if h : i < landmarks.length then some (landmarks.get ⟨i, h⟩) else none)

/-- The dictionary returned by `FacialLandmarks._get_lip_landmarks`. -/
structure LipGroup where
  upper_lip : List Pt3
  lower_lip : List Pt3
  all_lip : List Pt3
deriving DecidableEq

/-- `FacialLandmarks._get_lip_landmarks` (src/landmarks.py lines 175-188). -/
def getLipLandmarks (landmarks : List Pt3) : LipGroup :=
  let lip_landmarks := extractGroup lipIndices landmarks
  ⟨lip_landmarks.take 12, lip_landmarks.drop 12, lip_landmarks⟩

/-- The dictionary returned by `FacialLandmarks._get_eye_landmarks`. -/
structure EyeGroup where
  left_eye : List Pt3
  right_eye : List Pt3
  eyes : List Pt3
deriving DecidableEq

/-- `FacialLandmarks._get_eye_landmarks` (src/landmarks.py lines 190-203). -/
def getEyeLandmarks (landmarks : List Pt3) : EyeGroup :=
  let left_eye := extractGroup leftEyeIndices landmarks
  let right_eye := extractGroup rightEyeIndices landmarks
  ⟨left_eye, right_eye, left_eye ++ right_eye⟩

/-- The dictionary returned by `FacialLandmarks._get_eyebrow_landmarks`. -/
structure EyebrowGroup where
  left_eyebrow : List Pt3
  right_eyebrow : List Pt3
  eyebrows : List Pt3
deriving DecidableEq

/-- `FacialLandmarks._get_eyebrow_landmarks` (src/landmarks.py lines
205-218). -/
def getEyebrowLandmarks (landmarks : List Pt3) : EyebrowGroup :=
  let left_eyebrow := extractGroup leftEyebrowIndices landmarks
  let right_eyebrow := extractGroup rightEyebrowIndices landmarks
  ⟨left_eyebrow, right_eyebrow, left_eyebrow ++ right_eyebrow⟩

/-- `FacialLandmarks.calculate_lip_openness` (src/landmarks.py lines
279-312): fewer than 12 points gives 0.0; otherwise the absolute difference
of the mean y of the first 6 and the next 6 points, divided by the fixed
empirical maximum 50 and clamped to at most 1. -/
def calculateLipOpenness (landmarks : List Pt3) : ℚ :=
  if landmarks.length < 12 then 0
  else
    let upper_lip := landmarks.take 6
    let lower_lip := (landmarks.drop 6).take 6
    let upper_y := (upper_lip.map Pt3.y).sum / upper_lip.length
    let lower_y := (lower_lip.map Pt3.y).sum / lower_lip.length
    let openness := |upper_y - lower_y|
    min (openness / 50) 1

/-- Model of a MediaPipe face mesh handle: `process` returns the
`multi_face_landmarks` of an (RGB) image, one normalized landmark list per
detected face, the empty list standing for both `None` and no faces. -/
structure FaceMesh where
  process : Image → List (List Pt3)

/-- `FacialLandmarks` detector state: `face_mesh` is `none` when MediaPipe
is unavailable or failed to initialize (src/landmarks.py lines 30, 35-54). -/
structure Detector where
  face_mesh : Option FaceMesh

/-- The per-face dictionary built by `FacialLandmarks._extract_landmarks`. -/
structure FaceDict where
  all_landmarks : List Pt3
  lip_landmarks : LipGroup
  eye_landmarks : EyeGroup
  eyebrow_landmarks : EyebrowGroup
  image_shape : List Nat
  landmark_count : Nat
deriving DecidableEq

/-- `FacialLandmarks._extract_landmarks` (src/landmarks.py lines 133-173):
normalized coordinates are scaled to pixel space with `int(...)` truncation,
z is passed through, and the named groups are extracted. -/
def extractLandmarks (face : List Pt3) (width height : Nat) : FaceDict :=
  let landmarks := face.map
    (fun p => Pt3.mk ((pyInt (p.x * width) : ℤ) : ℚ) ((pyInt (p.y * height) : ℤ) : ℚ) p.z)
  { all_landmarks := landmarks
    lip_landmarks := getLipLandmarks landmarks
    eye_landmarks := getEyeLandmarks landmarks
    eyebrow_landmarks := getEyebrowLandmarks landmarks
    image_shape := [width, height]
    landmark_count := landmarks.length }

/-- `FacialLandmarks._process_image` (src/landmarks.py lines 99-131): an
uninitialized face mesh gives `[]`; otherwise the BGR image is converted to
RGB, processed, and each detected face is extracted. -/
def processImage (env : CvEnv) (det : Detector) (image : Image) : List FaceDict :=
  match det.face_mesh with
  | none => []
  | some mesh =>
    let rgb_image := env.cvtColor image
    (mesh.process rgb_image).map (fun f => extractLandmarks f image.width image.height)

/-- `FacialLandmarks.detect_landmarks` (src/landmarks.py lines 56-81): a
missing file or failed decode returns `[]`. -/
def detectLandmarks (env : CvEnv) (det : Detector) (image_path : String) :
    List FaceDict :=
  if env.fileExists image_path then
    match env.imread image_path with
    | some image => processImage env det image
    | none => []
  else []

/-- Concrete environment used by the witnesses: every path exists and decodes
to a fixed 4x3 source image. -/
def envW : CvEnv := ⟨fun _ => true, fun _ => some (Image.source 4 3 0), fun i => i⟩

/-- Concrete 100x100 source image used by the witnesses. -/
def imgW : Image := Image.source 100 100 0

/-- A face dictionary carrying exactly two lip points. -/
def lmsTwo : WarpFaceDict := ⟨[⟨10, 20⟩, ⟨30, 40⟩]⟩

lemma warpDefaultRegionCore_dims (image : Image) (p : VisemeParams) (im2 : Image)
    (h : warpDefaultRegionCore image p = some im2) :
    im2.width = image.width ∧ im2.height = image.height := by
  simp only [warpDefaultRegionCore] at h
  split at h
  · cases h
    exact ⟨rfl, rfl⟩
  · cases h

lemma warpDefaultRegion_dims (image : Image) (p : VisemeParams) :
    (warpDefaultRegion image p).width = image.width ∧
    (warpDefaultRegion image p).height = image.height := by
  unfold warpDefaultRegion
  cases hc : warpDefaultRegionCore image p with
  | none => simp [Option.getD]
  | some im2 => simpa using warpDefaultRegionCore_dims image p im2 hc

lemma warpWithLandmarksCore_dims (image : Image) (p : VisemeParams)
    (l : WarpFaceDict) (im2 : Image) (h : warpWithLandmarksCore image p l = some im2) :
    im2.width = image.width ∧ im2.height = image.height := by
  simp only [warpWithLandmarksCore] at h
  split at h
  · cases h
    exact warpDefaultRegion_dims image p
  · split at h
    · split at h
      · cases h
        exact ⟨rfl, rfl⟩
      · cases h
    · split at h
      · cases h
        exact ⟨rfl, rfl⟩
      · cases h

lemma warpFrame_dims (image : Image) (viseme : PyStr)
    (landmarks : Option (List WarpFaceDict)) :
    (warpFrame image viseme landmarks).width = image.width ∧
    (warpFrame image viseme landmarks).height = image.height := by
  unfold warpFrame warpFrameCore
  match landmarks with
  | some (l :: _) =>
    cases hc : warpWithLandmarksCore image (visemeShapesGet (pyUpper viseme)) l with
    | none => simp [hc]
    | some im2 =>
      simpa [hc] using warpWithLandmarksCore_dims image _ l im2 hc
  | some [] =>
    cases hc : warpDefaultRegionCore image (visemeShapesGet (pyUpper viseme)) with
    | none => simp [hc]
    | some im2 =>
      simpa [hc] using warpDefaultRegionCore_dims image _ im2 hc
  | none =>
    cases hc : warpDefaultRegionCore image (visemeShapesGet (pyUpper viseme)) with
    | none => simp [hc]
    | some im2 =>
      simpa [hc] using warpDefaultRegionCore_dims image _ im2 hc

/-- Claim C1: for every image that loads successfully and every viseme
sequence, `warp_lips` returns a list of exactly one frame per viseme, and
every returned frame has the same width and height as the source image. -/
theorem warpLips_length_and_dims (env : CvEnv) (image_path : String)
    (visemes : List PyStr) (landmarks : Option (List WarpFaceDict)) (image : Image)
    (hex : env.fileExists image_path = true)
    (him : env.imread image_path = some image) :
    (warpLips env image_path visemes landmarks).length = visemes.length ∧
    ∀ f ∈ warpLips env image_path visemes landmarks,
      f.width = image.width ∧ f.height = image.height := by
  have hl : warpLips env image_path visemes landmarks
      = visemes.map (fun v => warpFrame image v landmarks) := by
    unfold warpLips
    rw [hex, him]
    simp
  constructor
  · rw [hl, List.length_map]
  · intro f hf
    rw [hl] at hf
    obtain ⟨v, _, rfl⟩ := List.mem_map.mp hf
    exact warpFrame_dims image v landmarks

/-- Witness for claim C1 at a concrete environment, path and viseme list. -/
theorem warpLips_length_and_dims_witness :
    (warpLips envW "p" [[65]] none).length = 1 ∧
    ∀ f ∈ warpLips envW "p" [[65]] none, f.width = 4 ∧ f.height = 3 := by
  have h := warpLips_length_and_dims envW "p" [[65]] none (Image.source 4 3 0) rfl rfl
  simpa [Image.width, Image.height] using h

/-- Claim C2 (counterexample): for a landmark set with exactly 2 lip points
the engine does not produce the default-region warp output; the failed
affine-transform construction is caught and the frame is the unmodified
source image, which differs from the default-region warp of that image. -/
theorem warpTwoPoints_counterexample :
    warpFrame imgW [65] (some [lmsTwo]) = imgW ∧
    warpFrame imgW [65] (some [lmsTwo])
      ≠ warpDefaultRegion imgW (visemeShapesGet (pyUpper [65])) := by
  decide

/-- Claim C2 (amended): the landmark-guided warp falls back to the
default-region warp only when the landmark set yields zero usable lip
points; with exactly 1 or 2 lip points the affine transform cannot be
constructed and the caught error leaves the frame equal to the unmodified
source image, without raising. -/
theorem warpWithLandmarks_fallback (image : Image) (p : VisemeParams)
    (l : WarpFaceDict) :
    (l.all_lip = [] → warpWithLandmarks image p l = warpDefaultRegion image p) ∧
    (l.all_lip.length = 1 ∨ l.all_lip.length = 2 →
      warpWithLandmarks image p l = image) := by
  constructor
  · intro h
    simp [warpWithLandmarks, warpWithLandmarksCore, h]
  · intro h
    have hne : ¬ l.all_lip = [] := by
      intro he
      rw [he] at h
      simp at h
    have hlt : ¬ 4 ≤ l.all_lip.length := by
      rcases h with h | h <;> omega
    have ha : getAffineTransform (l.all_lip.take 3)
        ((applyVisemeTransform l.all_lip p).take 3) = none := by
      unfold getAffineTransform
      rw [if_neg]
      intro hc
      rw [List.length_take] at hc
      rcases h with h | h <;> omega
    simp only [warpWithLandmarks, warpWithLandmarksCore, if_neg hne, if_neg hlt, ha]
    rfl

/-- Witness for the amended claim C2 at concrete landmark sets with zero and
with two lip points. -/
theorem warpWithLandmarks_fallback_witness :
    warpWithLandmarks imgW paramsA ⟨[]⟩ = warpDefaultRegion imgW paramsA ∧
    warpWithLandmarks imgW paramsA lmsTwo = imgW :=
  ⟨(warpWithLandmarks_fallback imgW paramsA ⟨[]⟩).1 rfl,
   (warpWithLandmarks_fallback imgW paramsA lmsTwo).2 (Or.inr rfl)⟩

/-- Claim C3: when the warp of frame `i` fails internally (the core warp
computation hits a caught error), the output list keeps its full length,
frame `i` equals the unmodified source image, and every frame `j` is still
exactly the per-viseme warp of the source image, so the remaining sequence
is neither shortened nor aborted. -/
theorem warpLips_failure_isolated (env : CvEnv) (image_path : String)
    (visemes : List PyStr) (landmarks : Option (List WarpFaceDict))
    (image : Image) (i : Nat) (hex : env.fileExists image_path = true)
    (him : env.imread image_path = some image) (hi : i < visemes.length)
    (hfail : warpFrameCore image (visemes.get ⟨i, hi⟩) landmarks = none) :
    (warpLips env image_path visemes landmarks).length = visemes.length ∧
    (warpLips env image_path visemes landmarks).get? i = some image ∧
    ∀ j : Nat, (warpLips env image_path visemes landmarks).get? j
      = (visemes.get? j).map (fun v => warpFrame image v landmarks) := by
  have hl : warpLips env image_path visemes landmarks
      = visemes.map (fun v => warpFrame image v landmarks) := by
    unfold warpLips
    rw [hex, him]
    simp
  have hfail2 : warpFrameCore image visemes[i] landmarks = none := hfail
  refine ⟨by rw [hl, List.length_map], ?_, ?_⟩
  · rw [hl, List.get?_map, List.get?_eq_get hi]
    simp [warpFrame, hfail2]
  · intro j
    rw [hl, List.get?_map]

/-- Witness for claim C3: a single-viseme sequence whose only frame fails
(two lip points make the affine transform construction fail). -/
theorem warpLips_failure_isolated_witness :
    (warpLips envW "p" [[65]] (some [lmsTwo])).length = 1 ∧
    (warpLips envW "p" [[65]] (some [lmsTwo])).get? 0 = some (Image.source 4 3 0) ∧
    ∀ j : Nat, (warpLips envW "p" [[65]] (some [lmsTwo])).get? j
      = (([[65]] : List PyStr).get? j).map
          (fun v => warpFrame (Image.source 4 3 0) v (some [lmsTwo])) := by
  have h := warpLips_failure_isolated envW "p" [[65]] (some [lmsTwo])
    (Image.source 4 3 0) 0 rfl rfl (by decide) (by decide)
  simpa using h

/-- Twelve concrete lip points used by the claim C4 witness. -/
def ptsW : List Pt3 :=
  [⟨0, 0, 0⟩, ⟨0, 0, 0⟩, ⟨0, 0, 0⟩, ⟨0, 0, 0⟩, ⟨0, 0, 0⟩, ⟨0, 0, 0⟩,
   ⟨0, 300, 0⟩, ⟨0, 300, 0⟩, ⟨0, 300, 0⟩, ⟨0, 300, 0⟩, ⟨0, 300, 0⟩, ⟨0, 300, 0⟩]

/-- Claim C4: `calculate_lip_openness` returns 0 for fewer than 12 lip
points; for at least 12 points it returns the absolute difference of the
mean y of points 0..5 and the mean y of points 6..11, divided by 50 and
clamped above by 1, so the result always lies in [0, 1]. -/
theorem calculateLipOpenness_spec (landmarks : List Pt3) :
    (landmarks.length < 12 → calculateLipOpenness landmarks = 0) ∧
    (12 ≤ landmarks.length →
      calculateLipOpenness landmarks =
        min (|((landmarks.take 6).map Pt3.y).sum / 6
              - (((landmarks.drop 6).take 6).map Pt3.y).sum / 6| / 50) 1) ∧
    0 ≤ calculateLipOpenness landmarks ∧ calculateLipOpenness landmarks ≤ 1 := by
  by_cases hlen : landmarks.length < 12
  · have h0 : calculateLipOpenness landmarks = 0 := by
      simp [calculateLipOpenness, hlen]
    exact ⟨fun _ => h0, fun h12 => absurd h12 (by omega), by rw [h0], by rw [h0]; norm_num⟩
  · have hu : ((landmarks.take 6).length : ℚ) = 6 := by
      rw [List.length_take]
      norm_num
      omega
    have hlo : (((landmarks.drop 6).take 6).length : ℚ) = 6 := by
      rw [List.length_take, List.length_drop]
      norm_num
      omega
    have hform : calculateLipOpenness landmarks =
        min (|((landmarks.take 6).map Pt3.y).sum / 6
              - (((landmarks.drop 6).take 6).map Pt3.y).sum / 6| / 50) 1 := by
      simp only [calculateLipOpenness, if_neg hlen]
      rw [hu, hlo]
    refine ⟨fun h => absurd h hlen, fun _ => hform, ?_, ?_⟩
    · rw [hform]
      have : (0:ℚ) ≤ |((landmarks.take 6).map Pt3.y).sum / 6
          - (((landmarks.drop 6).take 6).map Pt3.y).sum / 6| / 50 := by positivity
      exact le_min this (by norm_num)
    · rw [hform]
      exact min_le_right _ _

/-- Witness for claim C4 at the empty list and at a concrete 12-point
list whose raw openness (6) is clamped to 1. -/
theorem calculateLipOpenness_spec_witness :
    calculateLipOpenness [] = 0 ∧ calculateLipOpenness ptsW = 1 ∧
    0 ≤ calculateLipOpenness ptsW ∧ calculateLipOpenness ptsW ≤ 1 := by
  refine ⟨(calculateLipOpenness_spec []).1 (by decide), ?_,
    (calculateLipOpenness_spec ptsW).2.2.1, (calculateLipOpenness_spec ptsW).2.2.2⟩
  have h := (calculateLipOpenness_spec ptsW).2.1 (by decide)
  rw [h]
  norm_num [ptsW]

lemma get?_dite (lms : List Pt3) (i : Nat) :
    (if h : i < lms.length then some (lms.get ⟨i, h⟩) else none) = lms.get? i := by
  split
  · exact (List.get?_eq_get _).symm
  · rename_i h
    exact (List.get?_eq_none.mpr (by omega)).symm

lemma extractGroup_eq_filterMap (indices : List Nat) (lms : List Pt3) :
    extractGroup indices lms = indices.filterMap lms.get? := by
  unfold extractGroup
  congr 1
  funext i
  exact get?_dite lms i

lemma filter_filterMap_get? (indices : List Nat) (lms : List Pt3) :
    (indices.filter (fun i => decide (i < lms.length))).filterMap lms.get?
      = indices.filterMap lms.get? := by
  induction indices with
  | nil => rfl
  | cons a t ih =>
    by_cases h : a < lms.length
    · simp [List.filter_cons, h, List.filterMap_cons, ih]
    · have hn : lms.get? a = none := List.get?_eq_none.mpr (by omega)
      rw [List.filter_cons, List.filterMap_cons, hn]
      simp [h, ih]

lemma extractGroup_eq (indices : List Nat) (lms : List Pt3) :
    extractGroup indices lms
      = (indices.filter (fun i => decide (i < lms.length))).filterMap lms.get? := by
  rw [extractGroup_eq_filterMap, filter_filterMap_get?]

/-- Claim C5: named-group extraction never indexes out of bounds — for every
landmark list, each group (lips, eyes, eyebrows) is exactly the entries of
its index table that fall below the list length, looked up in table order,
so a short list yields a correspondingly shorter (possibly empty) group. -/
theorem landmarkGroups_within_bounds (landmarks : List Pt3) :
    (getLipLandmarks landmarks).all_lip
      = (lipIndices.filter (fun i => decide (i < landmarks.length))).filterMap
          landmarks.get? ∧
    (getEyeLandmarks landmarks).left_eye
      = (leftEyeIndices.filter (fun i => decide (i < landmarks.length))).filterMap
          landmarks.get? ∧
    (getEyeLandmarks landmarks).right_eye
      = (rightEyeIndices.filter (fun i => decide (i < landmarks.length))).filterMap
          landmarks.get? ∧
    (getEyebrowLandmarks landmarks).left_eyebrow
      = (leftEyebrowIndices.filter (fun i => decide (i < landmarks.length))).filterMap
          landmarks.get? ∧
    (getEyebrowLandmarks landmarks).right_eyebrow
      = (rightEyebrowIndices.filter (fun i => decide (i < landmarks.length))).filterMap
          landmarks.get? :=
  ⟨extractGroup_eq lipIndices landmarks, extractGroup_eq leftEyeIndices landmarks,
   extractGroup_eq rightEyeIndices landmarks,
   extractGroup_eq leftEyebrowIndices landmarks,
   extractGroup_eq rightEyebrowIndices landmarks⟩

/-- Two concrete lip points used by the claim C6 witness. -/
def ptsC6 : List Pt2 := [⟨0, 0⟩, ⟨2, 4⟩]

/-- Claim C6: the viseme point transform maps every lip point (x, y) to
x' = cx + (x - cx) * widthFactor and, depending on whether the openness
exceeds 0.5, to y' = cy + (y - cy) * heightFactor * (1 + openness) or
y' = cy + (y - cy) * heightFactor * (1 - openness * 0.5), where (cx, cy) is
the centroid of the input points. -/
theorem applyVisemeTransform_formula (pts : List Pt2) (p : VisemeParams)
    (i : Nat) (q : Pt2) (hq : pts.get? i = some q) :
    (applyVisemeTransform pts p).get? i = some
      ⟨meanX pts + (q.x - meanX pts) * p.lip_width,
       if p.lip_openness > 0.5 then
         meanY pts + (q.y - meanY pts) * p.lip_height * (1 + p.lip_openness)
       else
         meanY pts + (q.y - meanY pts) * p.lip_height * (1 - p.lip_openness * 0.5)⟩ := by
  unfold applyVisemeTransform
  rw [List.get?_map, hq]
  rfl

/-- Witness for claim C6 at two concrete points and the `A` parameters
(openness 0.8 > 0.5): centroid (1, 2), so (0, 0) maps to
(1 + (0-1)*1.2, 2 + (0-2)*1.5*1.8) = (-0.2, -3.4). -/
theorem applyVisemeTransform_formula_witness :
    (applyVisemeTransform ptsC6 paramsA).get? 0 = some ⟨-0.2, -3.4⟩ := by
  have h := applyVisemeTransform_formula ptsC6 paramsA 0 ⟨0, 0⟩ rfl
  rw [h]
  norm_num [meanX, meanY, ptsC6, paramsA]

/-- Claim C7: every viseme symbol whose uppercased form is not a key of the
shape table resolves to the parameters of `A` (lip_openness 0.8, lip_width
1.2, lip_height 1.5), and frame generation proceeds exactly as it does for
the symbol `A`. -/
theorem unknownViseme_resolves_to_A (s : PyStr)
    (h : visemeShapes.lookup (pyUpper s) = none) :
    visemeShapesGet (pyUpper s) = ⟨0.8, 1.2, 1.5⟩ ∧
    ∀ (image : Image) (landmarks : Option (List WarpFaceDict)),
      warpFrame image s landmarks = warpFrame image [65] landmarks := by
  have hp : visemeShapesGet (pyUpper s) = paramsA := by
    unfold visemeShapesGet
    rw [h]
    rfl
  refine ⟨hp, ?_⟩
  intro image landmarks
  have hA : visemeShapesGet (pyUpper [65]) = paramsA := rfl
  simp only [warpFrame, warpFrameCore, hp, hA]

/-- Witness for claim C7 at the unknown symbol `z` (code point 122). -/
theorem unknownViseme_resolves_to_A_witness :
    visemeShapesGet (pyUpper [122]) = ⟨0.8, 1.2, 1.5⟩ ∧
    ∀ (image : Image) (landmarks : Option (List WarpFaceDict)),
      warpFrame image [122] landmarks = warpFrame image [65] landmarks :=
  unknownViseme_resolves_to_A [122] (by decide)

lemma foldl_visemes (l : List Nat) (acc : List PyStr) (fr : Nat) :
    l.foldl
      (fun acc c =>
        if pyIsAlpha c then
          acc ++ List.replicate (max 1 (fr / 10)) (phonemeToViseme c)
        else
          acc ++ List.replicate (fr / 20) [65])
      acc
    = acc ++ l.bind (fun c =>
        if pyIsAlpha c then List.replicate (max 1 (fr / 10)) (phonemeToViseme c)
        else List.replicate (fr / 20) [65]) := by
  induction l generalizing acc with
  | nil => simp
  | cons a t ih =>
    rw [List.foldl_cons, ih]
    by_cases h : pyIsAlpha a <;> simp [h, List.append_assoc]

/-- Claim C8: `create_viseme_sequence` emits, for every character of the
lowered text in input order, the mapped viseme repeated `max 1 (frameRate /
10)` times when the character is alphabetic, and the viseme `A` (code 65)
repeated `frameRate / 20` times otherwise. -/
theorem createVisemeSequence_spec (text : PyStr) (frame_rate : Nat) :
    createVisemeSequence text frame_rate
      = (pyLower text).bind (fun c =>
          if pyIsAlpha c then
            List.replicate (max 1 (frame_rate / 10)) (phonemeToViseme c)
          else
            List.replicate (frame_rate / 20) [65]) := by
  unfold createVisemeSequence
  rw [foldl_visemes]
  simp

/-- Claim C9: `detect_landmarks` returns the empty list (and never raises)
whenever the face mesh is uninitialized, the image file is missing, the
image cannot be decoded, or the mesh finds no face in the image; totality of
the model is the never-raises part. -/
theorem detectLandmarks_fails_soft (env : CvEnv) (det : Detector)
    (image_path : String)
    (h : det.face_mesh = none ∨ env.fileExists image_path = false ∨
         env.imread image_path = none ∨
         ∀ (mesh : FaceMesh) (image : Image), det.face_mesh = some mesh →
           env.imread image_path = some image →
           mesh.process (env.cvtColor image) = []) :
    detectLandmarks env det image_path = [] := by
  unfold detectLandmarks
  cases hex : env.fileExists image_path with
  | false => simp
  | true =>
    simp only [if_true]
    cases him : env.imread image_path with
    | none => simp
    | some image =>
      simp only []
      unfold processImage
      cases hm : det.face_mesh with
      | none => simp
      | some mesh =>
        rcases h with h | h | h | h
        · rw [hm] at h
          cases h
        · rw [hex] at h
          cases h
        · rw [him] at h
          cases h
        · have hp := h mesh image hm him
          simp [hp]

/-- Detector with an uninitialized face mesh, used by the claim C9
witness. -/
def detW : Detector := ⟨none⟩

/-- Witness for claim C9 at a concrete environment and a detector whose
face mesh is uninitialized. -/
theorem detectLandmarks_fails_soft_witness : detectLandmarks envW detW "p" = [] :=
  detectLandmarks_fails_soft envW detW "p" (Or.inl rfl)

lemma pyCharUpper_idem (c : Nat) : pyCharUpper (pyCharUpper c) = pyCharUpper c := by
  by_cases h : 97 ≤ c ∧ c ≤ 122
  · simp only [pyCharUpper, if_pos h]
    rw [if_neg (by omega)]
  · have h1 : pyCharUpper c = c := by
      unfold pyCharUpper
      exact if_neg h
    rw [h1]
    exact h1

lemma pyUpper_idem (s : PyStr) : pyUpper (pyUpper s) = pyUpper s := by
  simp [pyUpper, List.map_map, Function.comp_def, pyCharUpper_idem]

/-- Claim C10: viseme lookup is case-insensitive — for every image, landmark
set and viseme symbol `s`, the frame produced for `s` equals the frame
produced for the uppercased form of `s`, because the shape table is keyed
after uppercasing the symbol. -/
theorem warpFrame_case_insensitive (image : Image)
    (landmarks : Option (List WarpFaceDict)) (s : PyStr) :
    warpFrame image s landmarks = warpFrame image (pyUpper s) landmarks := by
  simp only [warpFrame, warpFrameCore, pyUpper_idem]
